import Mathlib

/-
Verification of the Linux ptrace sandbox tracer (PTraceSandbox.cpp).

The development shallowly embeds the tracer: paths are lists of characters,
machine integers are Nat or Int with explicit reductions modulo powers of two
where the C code overflows, and every call into the external event sink
(the BxlObserver) is recorded as a value of the SinkCall type.  External
queries the handlers make against the sink (get_mode, fd_to_path,
EnumerateDirectory, normalize_path_at) are parameters gathered in a
SandboxEnv record, so each handler becomes a pure function from its decoded
arguments and the environment to the list of sink calls it performs.
-/

namespace PTrace

/-- Paths and decoded argument strings are byte strings; characters suffice
for the properties proved here. -/
abbrev Path := List Char

/-- Event kinds of the canonical access events (es_event_type_t values used
by the tracer). -/
inductive EventType where
  | NOTIFY_OPEN
  | NOTIFY_WRITE
  | NOTIFY_CREATE
  | NOTIFY_STAT
  | NOTIFY_ACCESS
  | NOTIFY_UNLINK
  | NOTIFY_LINK
  | NOTIFY_READLINK
  | NOTIFY_SETTIME
  | NOTIFY_SETMODE
  | NOTIFY_FORK
  | AUTH_SETOWNER
  deriving DecidableEq, Repr

/-- Linux open(2) flag constants for x86_64. -/
def O_WRONLY : Nat := 1

def O_RDWR : Nat := 2

def O_ACCMODE : Nat := 3

def O_CREAT : Nat := 64

def O_TRUNC : Nat := 512

def O_NOFOLLOW : Nat := 131072

def AT_FDCWD : Int := -100

def AT_REMOVEDIR : Nat := 512

def S_IFMT : Nat := 61440

def S_IFDIR : Nat := 16384

def S_IFREG : Nat := 32768

def S_IFLNK : Nat := 40960

/-- One call from the tracer into the event sink.  The constructors mirror
the BxlObserver entry points the tracer uses: report_access (both the
IOEvent overload and the path overload carry the same payload here),
report_access_at, report_exec and report_exec_args. -/
inductive SinkCall where
  | reportAccess (syscall : String) (pid cpid : Nat) (kind : EventType)
      (src dst : Path) (mode : Nat) (oflags : Nat) (error : Nat)
      (checkCache : Bool)
  | reportAccessAt (syscall : String) (pid : Nat) (kind : EventType)
      (dirfd : Int) (path : Path) (oflags : Nat)
  | reportExec (syscall : String) (pid : Nat) (exePath : Path)
  | reportExecArgs (pid : Nat)
  deriving DecidableEq, Repr

/-- Results of the external sink queries a handler may perform, treated as a
pure snapshot of the world at the time of the stop. -/
structure SandboxEnv where
  getMode : Path → Nat
  fdToPath : Int → Path
  enumerateDirectory : Path → Option (List Path)
  normalizePathAt : Int → Path → Path
  programPath : Path
  reportProcessArgs : Bool

/-- Environment in which every query returns the neutral answer. -/
def emptyEnv : SandboxEnv where
  getMode := fun _ => 0
  fdToPath := fun _ => []
  enumerateDirectory := fun _ => none
  normalizePathAt := fun _ p => p
  programPath := []
  reportProcessArgs := false

/-- Value of a C equality expression used as an integer operand: 1 when the
two sides are equal, 0 otherwise. -/
def cEq (a b : Nat) : Nat := if a = b then 1 else 0

/-- The isCreate test of ReportOpen: the path does not exist (pre-call mode
is 0) and a create or truncate flag is set. -/
def reportOpenIsCreate (pathMode oflag : Nat) : Bool :=
  decide (pathMode = 0) && decide (oflag &&& (O_CREAT ||| O_TRUNC) ≠ 0)

/-- The isWrite test of ReportOpen, translated with C operator precedence:
in the source the subterm oflag & O_ACCMODE == O_WRONLY parses as
oflag & (O_ACCMODE == O_WRONLY), because == binds tighter than &. -/
def reportOpenIsWrite (pathMode oflag : Nat) : Bool :=
  decide (pathMode ≠ 0) &&
    (decide (oflag &&& (O_CREAT ||| O_TRUNC) ≠ 0) &&
      (decide (oflag &&& cEq O_ACCMODE O_WRONLY ≠ 0) ||
        decide (oflag &&& cEq O_ACCMODE O_RDWR ≠ 0)))

/-- Event kind chosen by ReportOpen. -/
def reportOpenKind (pathMode oflag : Nat) : EventType :=
  if reportOpenIsCreate pathMode oflag then EventType.NOTIFY_CREATE
  else if reportOpenIsWrite pathMode oflag then EventType.NOTIFY_WRITE
  else EventType.NOTIFY_OPEN

/-- ReportOpen: builds the IOEvent for an open-family syscall and hands it
to report_access (cache enabled by default). -/
def reportOpen (pid : Nat) (path : Path) (pathMode oflag : Nat)
    (syscallName : String) : SinkCall :=
  SinkCall.reportAccess syscallName pid 0 (reportOpenKind pathMode oflag)
    path [] pathMode 0 0 true

/-- ReportCreate: builds a NOTIFY_CREATE IOEvent on the path resolved
against dirfd and hands it to report_access. -/
def reportCreate (env : SandboxEnv) (pid : Nat) (syscallName : String)
    (dirfd : Int) (pathname : Path) (mode : Nat) (returnValue : Nat)
    (checkCache : Bool) : SinkCall :=
  SinkCall.reportAccess syscallName pid 0 EventType.NOTIFY_CREATE
    (env.normalizePathAt dirfd pathname) [] mode 0 returnValue checkCache

/-- GetErrno: the return register is read as a 64-bit value; 0 maps to 0 and
any other value is subtracted from the all-ones constant, the difference
being truncated to the 32-bit int the function returns. -/
def getErrno (r : Nat) : Nat :=
  let ru := r % 2 ^ 64
  if ru = 0 then 0 else (2 ^ 64 - 1 - ru) % 2 ^ 32

/-- Syscall numbers listed in the seccomp filter table, in source order
(x86_64 numbers). -/
def seccompFilterSyscalls : List Nat :=
  [322, 59, 4, 6, 5, 262, 21, 269, 85, 2, 257, 1, 20, 296, 328, 18, 76, 77,
   84, 82, 264, 316, 86, 265, 87, 263, 88, 266, 89, 267, 132, 235, 280, 261,
   83, 258, 133, 259, 90, 91, 268, 92, 93, 94, 260, 40, 326, 303, 57, 56]

/-- HandleSysCallGeneric: the dispatch switch.  Returns the name of the
handler invoked for the syscall number, or none when the default
(unknown-syscall) branch is taken. -/
def handleSysCallGeneric (n : Nat) : Option String :=
  match n with
  | 322 => some "execveat"
  | 59 => some "execve"
  | 4 => some "stat"
  | 6 => some "lstat"
  | 5 => some "fstat"
  | 262 => some "newfstatat"
  | 21 => some "access"
  | 269 => some "faccessat"
  | 85 => some "creat"
  | 2 => some "open"
  | 257 => some "openat"
  | 1 => some "write"
  | 20 => some "writev"
  | 296 => some "pwritev"
  | 328 => some "pwritev2"
  | 18 => some "pwrite64"
  | 76 => some "truncate"
  | 77 => some "ftruncate"
  | 84 => some "rmdir"
  | 82 => some "rename"
  | 264 => some "renameat"
  | 86 => some "link"
  | 265 => some "linkat"
  | 87 => some "unlink"
  | 263 => some "unlinkat"
  | 88 => some "symlink"
  | 266 => some "symlinkat"
  | 89 => some "readlink"
  | 267 => some "readlinkat"
  | 132 => some "utime"
  | 235 => some "utimes"
  | 280 => some "utimensat"
  | 261 => some "futimesat"
  | 83 => some "mkdir"
  | 258 => some "mkdirat"
  | 133 => some "mknod"
  | 259 => some "mknodat"
  | 90 => some "chmod"
  | 91 => some "fchmod"
  | 268 => some "fchmodat"
  | 92 => some "chown"
  | 93 => some "fchown"
  | 94 => some "lchown"
  | 260 => some "fchownat"
  | 40 => some "sendfile"
  | 326 => some "copy_file_range"
  | 303 => some "name_to_handle_at"
  | 57 => some "fork"
  | 56 => some "clone"
  | _ => none

/-- Head character of a C string, as operator[] on std::string yields it:
position size() reads as the NUL terminator. -/
def cStrHead (p : Path) : Char := p.headD (Char.ofNat 0)

/-- The S_ISDIR test on a mode value. -/
def isDirMode (m : Nat) : Bool := decide (m &&& S_IFMT = S_IFDIR)

/-- Effect of fileOrDirectory.replace(0, oldLen, news): the first oldLen
characters are spliced out and news is put in their place. -/
def replaceRoot (s : Path) (oldLen : Nat) (news : Path) : Path :=
  news ++ s.drop oldLen

/-- Body of the per-entry loop of HandleRenameGeneric: one NOTIFY_UNLINK for
the enumerated source entry, then ReportOpen with O_CREAT on the entry with
its root spliced from the old to the new directory path. -/
def renameEntryEvents (env : SandboxEnv) (pid : Nat) (syscall : String)
    (oldStr newStr : Path) (e : Path) : List SinkCall :=
  let dst := replaceRoot e oldStr.length newStr
  [SinkCall.reportAccess syscall pid 0 EventType.NOTIFY_UNLINK e []
      (env.getMode e) O_NOFOLLOW 0 true,
    reportOpen pid dst (env.getMode dst) O_CREAT syscall]

/-- HandleRenameGeneric: normalize both paths; when the source is a
directory, enumerate it recursively and emit the per-entry pairs; otherwise
emit one unlink for the source and one ReportOpen for the destination. -/
def handleRenameGeneric (env : SandboxEnv) (pid : Nat) (syscall : String)
    (olddirfd : Int) (oldpath : Path) (newdirfd : Int) (newpath : Path) :
    List SinkCall :=
  let oldStr := env.normalizePathAt olddirfd oldpath
  let newStr := env.normalizePathAt newdirfd newpath
  let mode := env.getMode oldStr
  if isDirMode mode then
    match env.enumerateDirectory oldStr with
    | some entries =>
      entries.flatMap (renameEntryEvents env pid syscall oldStr newStr)
    | none => []
  else
    [SinkCall.reportAccess syscall pid 0 EventType.NOTIFY_UNLINK oldStr []
        (env.getMode oldStr) O_NOFOLLOW 0 true,
      reportOpen pid newStr (env.getMode newStr) O_CREAT syscall]

/-- Handleunlinkat: the event is emitted only when dirfd differs from
AT_FDCWD and the decoded path has a non-NUL first character. -/
def handleunlinkat (pid : Nat) (dirfd : Int) (path : Path) (flags : Nat) :
    List SinkCall :=
  if dirfd ≠ AT_FDCWD ∧ cStrHead path ≠ Char.ofNat 0 then
    [SinkCall.reportAccessAt "unlinkat" pid EventType.NOTIFY_UNLINK dirfd path
        (if flags &&& AT_REMOVEDIR ≠ 0 then 0 else O_NOFOLLOW)]
  else []

/-- Handlemkdir: the tracee has been advanced past syscall exit, r is the
raw 64-bit return register value; the event carries GetErrno of it and the
cache is disabled. -/
def handlemkdir (env : SandboxEnv) (pid : Nat) (path : Path) (r : Nat) :
    List SinkCall :=
  [reportCreate env pid "mkdir" AT_FDCWD path S_IFDIR (getErrno r) false]

/-- Handlemkdirat: same discipline as mkdir with an explicit dirfd. -/
def handlemkdirat (env : SandboxEnv) (pid : Nat) (dirfd : Int) (path : Path)
    (r : Nat) : List SinkCall :=
  [reportCreate env pid "mkdirat" dirfd path S_IFDIR (getErrno r) false]

/-- Handlermdir: NOTIFY_UNLINK with the directory mode bit, GetErrno of the
return register, cache disabled. -/
def handlermdir (pid : Nat) (path : Path) (r : Nat) : List SinkCall :=
  [SinkCall.reportAccess "rmdir" pid 0 EventType.NOTIFY_UNLINK path []
      S_IFDIR 0 (getErrno r) false]

/-- HandleReportAccessFd: resolve the fd through the sink and report only
when the resolved path begins with a slash. -/
def handleReportAccessFd (env : SandboxEnv) (pid : Nat) (syscall : String)
    (fd : Int) (kind : EventType) : List SinkCall :=
  let path := env.fdToPath fd
  if cStrHead path = '/' then
    [SinkCall.reportAccess syscall pid 0 kind path [] 0 0 0 true]
  else []

/-- Handlewrite: fd-keyed write report. -/
def handlewrite (env : SandboxEnv) (pid : Nat) (fd : Int) : List SinkCall :=
  handleReportAccessFd env pid "write" fd EventType.NOTIFY_WRITE

/-- Handlereadlinkat: forwards the dirfd and the decoded path directly to
report_access_at, without consulting fd_to_path. -/
def handlereadlinkat (pid : Nat) (fd : Int) (path : Path) : List SinkCall :=
  [SinkCall.reportAccessAt "readlinkat" pid EventType.NOTIFY_READLINK fd path
      O_NOFOLLOW]

/-- One row of the tracee table: a pid paired with the executable path. -/
structure TraceeEntry where
  pid : Nat
  exe : Path
  deriving DecidableEq, Repr

/-- Membership test behind FindProcess. -/
def tableHas (t : List TraceeEntry) (pid : Nat) : Bool :=
  t.any fun e => e.pid = pid

/-- Update of the first entry with the given pid, as writing through the
iterator FindProcess returned does. -/
def updateFirstExe : List TraceeEntry → Nat → Path → List TraceeEntry
  | [], _, _ => []
  | e :: rest, pid, exe =>
    if e.pid = pid then { e with exe := exe } :: rest
    else e :: updateFirstExe rest pid exe

/-- The synthetic fork event emitted on vfork discovery. -/
def vforkEvent (pid : Nat) (exePath : Path) : SinkCall :=
  SinkCall.reportAccess "vfork" pid pid EventType.NOTIFY_FORK exePath [] 0 0 0
    false

/-- UpdateTraceeTableForExec: update the entry in place when the pid is
known; otherwise infer a vfork child, emit the synthetic fork event and
append a fresh entry. -/
def updateTraceeTableForExec (t : List TraceeEntry) (pid : Nat)
    (exePath : Path) : List TraceeEntry × List SinkCall :=
  if tableHas t pid then (updateFirstExe t pid exePath, [])
  else (t ++ [⟨pid, exePath⟩], [vforkEvent pid exePath])

/-- Handleexecve: table maintenance first, then the exec report, then the
optional exec-arguments report. -/
def handleexecve (env : SandboxEnv) (t : List TraceeEntry) (pid : Nat)
    (file : Path) : List TraceeEntry × List SinkCall :=
  let res := updateTraceeTableForExec t pid file
  (res.1,
    res.2 ++ [SinkCall.reportExec "execve" pid file] ++
      (if env.reportProcessArgs then [SinkCall.reportExecArgs pid] else []))

/-- HandleChildProcess: the childpid has been read from the return register;
the parent exe is inherited when the parent is in the table, the program
path of the tracer is the fallback; the fork event is emitted and the child
appended. -/
def handleChildProcess (env : SandboxEnv) (t : List TraceeEntry)
    (pid childpid : Nat) (syscall : String) :
    List TraceeEntry × List SinkCall :=
  let exePath :=
    match t.find? (fun e => e.pid = pid) with
    | some e => e.exe
    | none => env.programPath
  (t ++ [⟨childpid, exePath⟩],
    [SinkCall.reportAccess syscall pid childpid EventType.NOTIFY_FORK exePath
        [] 0 0 0 false])

/-- RemoveFromTraceeTable: the erase-remove idiom drops every entry whose
pid is the current tracee pid. -/
def removeFromTraceeTable (t : List TraceeEntry) (pid : Nat) :
    List TraceeEntry :=
  t.filter fun e => e.pid ≠ pid

/-- Initial table contents right after PTRACE_SEIZE succeeds. -/
def attachInitialTable (pid : Nat) (exe : Path) : List TraceeEntry :=
  [⟨pid, exe⟩]

/-- Outcomes the bootstrap call can reach: a fatal _exit with a code, or the
final image replacement returning (it returns only on failure). -/
inductive BootstrapOutcome where
  | fatalExit (code : Int)
  | execFailed (ret : Int)
  deriving DecidableEq, Repr

/-- Observable result of the bootstrap: its outcome, whether the seccomp
filter got installed, whether the latch was closed and unlinked, and the
absolute deadline handed to the timed wait when one was issued. -/
structure BootstrapResult where
  outcome : BootstrapOutcome
  filterInstalled : Bool
  semCleanedUp : Bool
  waitDeadline : Option Nat
  deriving DecidableEq, Repr

/-- Success and failure of each external call the bootstrap makes, plus the
clock reading taken before the wait. -/
structure BootstrapEnv where
  semOpenOk : Bool
  clockOk : Bool
  clockNow : Nat
  semWaitOk : Bool
  noNewPrivsOk : Bool
  seccompOk : Bool
  execReturn : Int

/-- ExecuteWithPTraceSandbox as the straight-line sequence of the source:
open the latch, read the clock, wait with a 15-second deadline, close and
unlink the latch unconditionally after the wait, drop new privileges,
install the filter, replace the image. -/
def executeWithPTraceSandbox (env : BootstrapEnv) : BootstrapResult :=
  if ¬env.semOpenOk then
    ⟨BootstrapOutcome.fatalExit (-1), false, false, none⟩
  else if ¬env.clockOk then
    ⟨BootstrapOutcome.fatalExit (-1), false, false, none⟩
  else if ¬env.semWaitOk then
    ⟨BootstrapOutcome.fatalExit (-1), false, true, some (env.clockNow + 15)⟩
  else if ¬env.noNewPrivsOk then
    ⟨BootstrapOutcome.fatalExit (-1), false, true, some (env.clockNow + 15)⟩
  else if ¬env.seccompOk then
    ⟨BootstrapOutcome.fatalExit (-1), false, true, some (env.clockNow + 15)⟩
  else
    ⟨BootstrapOutcome.execFailed env.execReturn, true, true,
      some (env.clockNow + 15)⟩

/-- Little-endian bytes of one peeked machine word, read through the
char pointer cast of the source. -/
def wordBytes (w : Int) : List Nat :=
  let u := (w % (2 ^ 64 : Int)).toNat
  [u % 256, u / 256 % 256, u / 65536 % 256, u / 16777216 % 256,
    u / 4294967296 % 256, u / 1099511627776 % 256,
    u / 281474976710656 % 256, u / 72057594037927936 % 256]

/-- Inner byte loop of ReadArgumentStringAtAddr: walk the bytes of the
current word, stopping when NUL is met in null-terminated mode or when the
running length reaches a positive length bound; the Bool records whether a
stop was hit. -/
def innerLoop (nt : Bool) (len : Int) :
    List Nat → List Nat → Int → List Nat × Int × Bool
  | [], acc, cur => (acc, cur, false)
  | b :: rest, acc, cur =>
    if (nt && decide (b = 0)) || (decide (0 < len) && decide (cur = len)) then
      (acc, cur, true)
    else innerLoop nt len rest (acc ++ [b]) (cur + 1)

/-- ReadArgumentStringAtAddr as a fuel-indexed loop: mem is the peek at a
byte address, a peeked word equal to -1 (a fault, or an all-ones word) ends
the read with what was accumulated; none means the fuel ran out with the
loop still running. -/
def readArgumentStringAtAddr (mem : Nat → Int) (nt : Bool) (len : Int) :
    Nat → Nat → List Nat → Int → Option (List Nat)
  | 0, _, _, _ => none
  | fuel + 1, addr, acc, cur =>
    let w := mem addr
    if w = -1 then some acc
    else
      let st := innerLoop nt len (wordBytes w) acc cur
      if st.2.2 then some st.1
      else readArgumentStringAtAddr mem nt len fuel (addr + 8) st.1 st.2.1

/-! Helper lemmas shared by several results. -/

/-- The isWrite test of ReportOpen is constantly false: with the C parse,
both equality subterms are the constant 0, and anding anything with 0
gives 0. -/
theorem reportOpenIsWrite_eq_false (m f : Nat) :
    reportOpenIsWrite m f = false := by
  simp [reportOpenIsWrite, cEq, O_ACCMODE, O_WRONLY, O_RDWR, Nat.and_zero]

/-- No input makes ReportOpen choose the write kind. -/
theorem reportOpenKind_ne_write (m f : Nat) :
    reportOpenKind m f ≠ EventType.NOTIFY_WRITE := by
  unfold reportOpenKind
  rw [reportOpenIsWrite_eq_false]
  split <;> simp

/-- With the bare O_CREAT flag, ReportOpen classifies by existence alone. -/
theorem reportOpenKind_creat (m : Nat) :
    reportOpenKind m O_CREAT =
      if m = 0 then EventType.NOTIFY_CREATE else EventType.NOTIFY_OPEN := by
  by_cases h : m = 0 <;>
    simp [reportOpenKind, reportOpenIsCreate, reportOpenIsWrite_eq_false, h,
      O_CREAT, O_TRUNC]

/-- C1: For every open-family call, the spec says the kind is NOTIFY_CREATE
when the path does not exist and create/truncate flags are set,
NOTIFY_WRITE when the path exists and a writable open is requested, and
NOTIFY_OPEN otherwise.  The code disagrees on the write arm: at pre-call
mode 33188 (an existing regular file) and oflag 577 = O_CREAT|O_TRUNC|
O_WRONLY, a writable open of an existing path, ReportOpen yields
NOTIFY_OPEN, and indeed no input at all yields NOTIFY_WRITE, because the
isWrite expression parses as oflag & (O_ACCMODE == O_WRONLY), a constant
zero. -/
theorem c1_open_family_classification :
    (33188 : Nat) ≠ 0 ∧
    577 &&& O_ACCMODE = O_WRONLY ∧
    reportOpenKind 33188 577 = EventType.NOTIFY_OPEN ∧
    ∀ pathMode oflag, reportOpenKind pathMode oflag ≠ EventType.NOTIFY_WRITE :=
  ⟨by decide, by decide, by decide, reportOpenKind_ne_write⟩

/-- The all-ones return register value is the one nonzero value GetErrno
sends to zero. -/
theorem getErrno_allones : getErrno (2 ^ 64 - 1) = 0 := by decide

/-- C2: The claim says the error_code of a mkdir/mkdirat/rmdir event is 0
iff the syscall returned 0.  The derivation 0xffffffffffffffff - return
breaks this at return value -1 (bit pattern 2^64 - 1, a mkdir failing with
EPERM): the event then carries error_code 0.  For the other realistic
failure returns -errno with errno in 2..4095 the carried value errno - 1 is
nonzero, as shown at -13; the mkdir handler forwards exactly this value. -/
theorem c2_mkdir_errno_zero_iff :
    getErrno (2 ^ 64 - 1) = 0 ∧
    (2 ^ 64 - 1 : Nat) % 2 ^ 64 ≠ 0 ∧
    getErrno (2 ^ 64 - 13) = 12 ∧
    getErrno 0 = 0 ∧
    ∀ env pid path,
      handlemkdir env pid path (2 ^ 64 - 1) =
        [reportCreate env pid "mkdir" AT_FDCWD path S_IFDIR 0 false] := by
  refine ⟨getErrno_allones, by decide, by decide, by decide, ?_⟩
  intro env pid path
  simp [handlemkdir, show getErrno 18446744073709551615 = 0 by decide]

/-- C3: The claim says the syscalls surfaced by the seccomp filter are
exactly the ones the dispatcher handles, renameat2 in particular reaching
the rename-family handler.  In the code renameat2 (syscall 316) is in the
filter table but the dispatch switch has no case for it, so a surfaced
renameat2 falls into the unknown-syscall branch; it is the only surfaced
syscall that does. -/
theorem c3_renameat2_surfaced_not_dispatched :
    316 ∈ seccompFilterSyscalls ∧
    handleSysCallGeneric 316 = none ∧
    seccompFilterSyscalls.filter (fun n => (handleSysCallGeneric n).isNone) =
      [316] ∧
    handleSysCallGeneric 264 = some "renameat" := by decide

/-- A flatMap whose function always yields two elements doubles the
length. -/
theorem length_flatMap_two {α β : Type} (f : α → List β)
    (h : ∀ a, (f a).length = 2) :
    ∀ l : List α, (l.flatMap f).length = 2 * l.length := by
  intro l
  induction l with
  | nil => simp
  | cons a t ih =>
    simp only [List.flatMap_cons, List.length_append, h a, ih,
      List.length_cons]
    omega

/-- Environment of a directory rename whose single enumerated entry already
exists at its rewritten destination (a rename that will fail with a
non-empty destination still runs the handler at syscall entry). -/
def c4Env : SandboxEnv where
  getMode := fun p =>
    if p = ['/', 'a'] then 16877
    else if p = ['/', 'a', '/', 'f'] then 33188
    else if p = ['/', 'b', '/', 'f'] then 33188
    else 0
  fdToPath := fun _ => []
  enumerateDirectory := fun p =>
    if p = ['/', 'a'] then some [['/', 'a', '/', 'f']] else none
  normalizePathAt := fun _ p => p
  programPath := []
  reportProcessArgs := false

/-- C4 counterexample: renaming directory /a with one entry /a/f while the
rewritten destination /b/f exists yields the pair (NOTIFY_UNLINK /a/f,
NOTIFY_OPEN /b/f): the second component is not a NOTIFY_CREATE, against the
claim that every pair is (unlink, create). -/
theorem c4_counterexample_existing_destination :
    c4Env.enumerateDirectory ['/', 'a'] = some [['/', 'a', '/', 'f']] ∧
    handleRenameGeneric c4Env 7 "rename" AT_FDCWD ['/', 'a'] AT_FDCWD
        ['/', 'b'] =
      [SinkCall.reportAccess "rename" 7 0 EventType.NOTIFY_UNLINK
          ['/', 'a', '/', 'f'] [] 33188 O_NOFOLLOW 0 true,
        SinkCall.reportAccess "rename" 7 0 EventType.NOTIFY_OPEN
          ['/', 'b', '/', 'f'] [] 33188 0 0 true] ∧
    EventType.NOTIFY_OPEN ≠ EventType.NOTIFY_CREATE := by decide

/-- C4: For a rename whose source is a directory of N enumerated entries,
the handler emits exactly N two-event groups; for an entry written as the
old root followed by a suffix, the first event is the NOTIFY_UNLINK of the
source entry and the second is reported at the new root followed by the
same suffix, its kind being NOTIFY_CREATE exactly when that destination
does not exist at call time (and NOTIFY_OPEN otherwise). -/
theorem c4_rename_directory_tree (env : SandboxEnv) (pid : Nat)
    (sys : String) (olddirfd newdirfd : Int) (oldpath newpath : Path)
    (oldStr newStr : Path) (entries : List Path)
    (hold : env.normalizePathAt olddirfd oldpath = oldStr)
    (hnew : env.normalizePathAt newdirfd newpath = newStr)
    (hdir : isDirMode (env.getMode oldStr) = true)
    (henum : env.enumerateDirectory oldStr = some entries) :
    (handleRenameGeneric env pid sys olddirfd oldpath newdirfd
        newpath).length = 2 * entries.length ∧
    handleRenameGeneric env pid sys olddirfd oldpath newdirfd newpath =
      entries.flatMap (renameEntryEvents env pid sys oldStr newStr) ∧
    ∀ suffix : Path,
      renameEntryEvents env pid sys oldStr newStr (oldStr ++ suffix) =
        [SinkCall.reportAccess sys pid 0 EventType.NOTIFY_UNLINK
            (oldStr ++ suffix) [] (env.getMode (oldStr ++ suffix)) O_NOFOLLOW
            0 true,
          SinkCall.reportAccess sys pid 0
            (if env.getMode (newStr ++ suffix) = 0 then
              EventType.NOTIFY_CREATE
            else EventType.NOTIFY_OPEN)
            (newStr ++ suffix) [] (env.getMode (newStr ++ suffix)) 0 0
            true] := by
  have hGen :
      handleRenameGeneric env pid sys olddirfd oldpath newdirfd newpath =
        entries.flatMap (renameEntryEvents env pid sys oldStr newStr) := by
    simp [handleRenameGeneric, hold, hnew, hdir, henum]
  refine ⟨?_, hGen, ?_⟩
  · rw [hGen]
    exact length_flatMap_two (renameEntryEvents env pid sys oldStr newStr)
      (fun e => rfl) entries
  · intro suffix
    simp only [renameEntryEvents, reportOpen, replaceRoot, List.drop_left,
      reportOpenKind_creat]

/-- C4 witness: the directory /a of c4Env has one enumerated entry, and the
handler emits two events. -/
theorem c4_rename_directory_tree_witness :
    (handleRenameGeneric c4Env 7 "rename" AT_FDCWD ['/', 'a'] AT_FDCWD
        ['/', 'b']).length = 2 * 1 :=
  (c4_rename_directory_tree c4Env 7 "rename" AT_FDCWD AT_FDCWD ['/', 'a']
    ['/', 'b'] ['/', 'a'] ['/', 'b'] [['/', 'a', '/', 'f']] rfl rfl
    (by decide) rfl).1

/-- C5 counterexample: an unlinkat on a non-empty path relative to AT_FDCWD
produces no event, against the claim that every non-empty path is
reported. -/
theorem c5_counterexample_at_fdcwd :
    handleunlinkat 7 AT_FDCWD ['a'] 0 = [] ∧ (['a'] : Path) ≠ [] := by
  decide

/-- C5: An unlinkat event is emitted exactly for a non-empty decoded path
whose dirfd differs from AT_FDCWD; an empty path, or a dirfd equal to
AT_FDCWD, produces no event.  The decoded path never contains NUL, which
the hypothesis records. -/
theorem c5_unlinkat_event_condition (pid : Nat) (dirfd : Int) (path : Path)
    (flags : Nat) (hnn : Char.ofNat 0 ∉ path) :
    (path ≠ [] ∧ dirfd ≠ AT_FDCWD →
      handleunlinkat pid dirfd path flags =
        [SinkCall.reportAccessAt "unlinkat" pid EventType.NOTIFY_UNLINK dirfd
            path (if flags &&& AT_REMOVEDIR ≠ 0 then 0 else O_NOFOLLOW)]) ∧
    (path = [] → handleunlinkat pid dirfd path flags = []) ∧
    (dirfd = AT_FDCWD → handleunlinkat pid dirfd path flags = []) := by
  refine ⟨?_, ?_, ?_⟩
  · rintro ⟨hne, hfd⟩
    have hc : cStrHead path ≠ Char.ofNat 0 := by
      cases path with
      | nil => cases hne rfl
      | cons c r =>
        simp only [cStrHead, List.headD_cons]
        intro h
        subst h
        exact hnn (List.mem_cons_self _ _)
    unfold handleunlinkat
    rw [if_pos ⟨hfd, hc⟩]
  · intro h
    subst h
    unfold handleunlinkat
    rw [if_neg (fun h => h.2 rfl)]
  · intro h
    subst h
    unfold handleunlinkat
    rw [if_neg (fun h => h.1 rfl)]

/-- C5 witness: a non-empty path under a dirfd other than AT_FDCWD is
reported. -/
theorem c5_unlinkat_event_condition_witness :
    handleunlinkat 7 5 ['a'] 0 =
      [SinkCall.reportAccessAt "unlinkat" 7 EventType.NOTIFY_UNLINK 5 ['a']
          O_NOFOLLOW] :=
  (c5_unlinkat_event_condition 7 5 ['a'] 0 (by decide)).1
    ⟨by decide, by decide⟩

/-- C6: When the exec handler runs for a pid absent from the tracee table,
the synthetic NOTIFY_FORK event for that pid heads the emitted sequence,
strictly before the exec report, and the table gains the appended entry. -/
theorem c6_vfork_discovery_before_exec (env : SandboxEnv)
    (t : List TraceeEntry) (pid : Nat) (file : Path)
    (habs : tableHas t pid = false) :
    (handleexecve env t pid file).2 =
      vforkEvent pid file :: SinkCall.reportExec "execve" pid file ::
        (if env.reportProcessArgs then [SinkCall.reportExecArgs pid]
          else []) ∧
    (handleexecve env t pid file).1 = t ++ [⟨pid, file⟩] := by
  constructor <;> simp [handleexecve, updateTraceeTableForExec, habs]

/-- C6 witness: a pid unknown to a one-entry table gets the synthetic fork
event first. -/
theorem c6_vfork_discovery_before_exec_witness :
    (handleexecve emptyEnv [⟨1, ['p']⟩] 5 ['x']).2 =
      vforkEvent 5 ['x'] :: SinkCall.reportExec "execve" 5 ['x'] ::
        (if emptyEnv.reportProcessArgs then [SinkCall.reportExecArgs 5]
          else []) :=
  (c6_vfork_discovery_before_exec emptyEnv [⟨1, ['p']⟩] 5 ['x']
    (by decide)).1

/-- Updating the exe of the first matching entry leaves the pid column
unchanged. -/
theorem updateFirstExe_map_pid (t : List TraceeEntry) (pid : Nat)
    (exe : Path) :
    (updateFirstExe t pid exe).map TraceeEntry.pid =
      t.map TraceeEntry.pid := by
  induction t with
  | nil => rfl
  | cons e r ih => by_cases h : e.pid = pid <;> simp [updateFirstExe, h, ih]

/-- A failed FindProcess means the pid is not in the pid column. -/
theorem not_mem_pid_of_tableHas_eq_false (t : List TraceeEntry) (p : Nat)
    (h : tableHas t p = false) : p ∉ t.map TraceeEntry.pid := by
  intro hmem
  rcases List.mem_map.mp hmem with ⟨e, he, hpe⟩
  have ht : tableHas t p = true := by
    simp only [tableHas, List.any_eq_true, decide_eq_true_eq]
    exact ⟨e, he, hpe⟩
  rw [h] at ht
  cases ht

/-- Appending an entry with a pid not yet in the column keeps the column
duplicate-free. -/
theorem nodup_append_fresh (t : List TraceeEntry) (p : Nat) (x : Path)
    (hn : (t.map TraceeEntry.pid).Nodup) (hf : p ∉ t.map TraceeEntry.pid) :
    ((t ++ [TraceeEntry.mk p x]).map TraceeEntry.pid).Nodup := by
  rw [List.map_append, List.nodup_append]
  refine ⟨hn, List.nodup_singleton p, ?_⟩
  intro a ha hb
  simp only [List.map_cons, List.map_nil, List.mem_singleton] at hb
  subst hb
  exact hf ha

/-- C7: The tracee table never holds two entries with the same pid: the
initial attach table is duplicate-free, and the fork/clone child append
(for a child pid the kernel guarantees is not already traced), the exec
update in both of its branches, and the exit removal each preserve
duplicate-freedom of the pid column. -/
theorem c7_table_at_most_one_entry_per_pid :
    (∀ pid exe,
      ((attachInitialTable pid exe).map TraceeEntry.pid).Nodup) ∧
    (∀ env t pid childpid sys,
      ((t : List TraceeEntry).map TraceeEntry.pid).Nodup →
      tableHas t childpid = false →
      (((handleChildProcess env t pid childpid sys).1).map
          TraceeEntry.pid).Nodup) ∧
    (∀ t pid exe,
      ((t : List TraceeEntry).map TraceeEntry.pid).Nodup →
      (((updateTraceeTableForExec t pid exe).1).map
          TraceeEntry.pid).Nodup) ∧
    (∀ t pid,
      ((t : List TraceeEntry).map TraceeEntry.pid).Nodup →
      ((removeFromTraceeTable t pid).map TraceeEntry.pid).Nodup) := by
  refine ⟨?_, ?_, ?_, ?_⟩
  · intro pid exe
    simp [attachInitialTable]
  · intro env t pid childpid sys hn hf
    simp only [handleChildProcess]
    exact nodup_append_fresh t childpid _ hn
      (not_mem_pid_of_tableHas_eq_false t childpid hf)
  · intro t pid exe hn
    by_cases h : tableHas t pid
    · simp only [updateTraceeTableForExec, h, if_true]
      rw [updateFirstExe_map_pid]
      exact hn
    · rw [Bool.not_eq_true] at h
      simp only [updateTraceeTableForExec, h, Bool.false_eq_true, if_false]
      exact nodup_append_fresh t pid exe hn
        (not_mem_pid_of_tableHas_eq_false t pid h)
  · intro t pid hn
    exact hn.sublist ((List.filter_sublist t).map TraceeEntry.pid)

/-- C7 witness: each hypothesis-bearing mutation evaluated on a concrete
table. -/
theorem c7_table_at_most_one_entry_per_pid_witness :
    (((handleChildProcess emptyEnv [⟨1, ['a']⟩] 1 2 "fork").1).map
        TraceeEntry.pid).Nodup ∧
    (((updateTraceeTableForExec [⟨1, ['a']⟩] 2 ['b']).1).map
        TraceeEntry.pid).Nodup ∧
    ((removeFromTraceeTable [⟨1, ['a']⟩, ⟨2, ['b']⟩] 1).map
        TraceeEntry.pid).Nodup :=
  ⟨c7_table_at_most_one_entry_per_pid.2.1 emptyEnv [⟨1, ['a']⟩] 1 2 "fork"
      (by decide) (by decide),
    c7_table_at_most_one_entry_per_pid.2.2.1 [⟨1, ['a']⟩] 2 ['b']
      (by decide),
    c7_table_at_most_one_entry_per_pid.2.2.2 [⟨1, ['a']⟩, ⟨2, ['b']⟩] 1
      (by decide)⟩

/-- C8: When the latch was opened and the clock read but the timed wait on
the rendezvous latch fails (timeout included), the bootstrap exits with the
nonzero status -1, the seccomp filter is never installed, the latch is
still closed and unlinked, and the deadline that was used is the clock
reading plus 15 seconds. -/
theorem c8_latch_wait_failure (env : BootstrapEnv)
    (h1 : env.semOpenOk = true) (h2 : env.clockOk = true)
    (hw : env.semWaitOk = false) :
    executeWithPTraceSandbox env =
      ⟨BootstrapOutcome.fatalExit (-1), false, true,
        some (env.clockNow + 15)⟩ ∧
    (-1 : Int) ≠ 0 := by
  constructor
  · simp [executeWithPTraceSandbox, h1, h2, hw]
  · decide

/-- Concrete bootstrap run whose timed wait fails at clock reading 100. -/
def c8Env : BootstrapEnv := ⟨true, true, 100, false, true, true, 0⟩

/-- C8 witness: the concrete failing wait exits -1 without a filter, with
deadline 115. -/
theorem c8_latch_wait_failure_witness :
    executeWithPTraceSandbox c8Env =
      ⟨BootstrapOutcome.fatalExit (-1), false, true, some 115⟩ :=
  (c8_latch_wait_failure c8Env rfl rfl rfl).1

/-- Environment in which every fd resolves to the non-path string a pipe fd
yields. -/
def c9Env : SandboxEnv :=
  { emptyEnv with fdToPath := fun _ => ['p', 'i', 'p', 'e'] }

/-- C9 counterexample: with every fd resolving to a path that does not
begin with a slash, Handlereadlinkat still emits its report, against the
claim that no event is produced; the handler never consults fd_to_path. -/
theorem c9_counterexample_readlinkat_reports :
    cStrHead (c9Env.fdToPath 5) ≠ '/' ∧
    handlereadlinkat 7 5 ['x'] =
      [SinkCall.reportAccessAt "readlinkat" 7 EventType.NOTIFY_READLINK 5
          ['x'] O_NOFOLLOW] := by decide

/-- C9: The no-event guard for fds resolving outside the filesystem lives
in HandleReportAccessFd, used by the fd-keyed handlers (fstat, the write
family, ftruncate, fchmod, fchown, sendfile, copy_file_range): those emit
nothing when the resolved path does not begin with a slash.
Handlereadlinkat does not go through this guard and always emits exactly
one report. -/
theorem c9_fd_path_guard (env : SandboxEnv) (pid : Nat) (sys : String)
    (fd : Int) (kind : EventType)
    (h : cStrHead (env.fdToPath fd) ≠ '/') :
    handleReportAccessFd env pid sys fd kind = [] ∧
    ∀ q : Nat, ∀ fd2 : Int, ∀ p : Path,
      (handlereadlinkat q fd2 p).length = 1 := by
  constructor
  · simp [handleReportAccessFd, h]
  · intro q fd2 p
    rfl

/-- C9 witness: a write through a pipe-backed fd produces no event. -/
theorem c9_fd_path_guard_witness :
    handleReportAccessFd c9Env 7 "write" 5 EventType.NOTIFY_WRITE = [] :=
  (c9_fd_path_guard c9Env 7 "write" 5 EventType.NOTIFY_WRITE (by decide)).1

/-- With null-terminated mode off and a non-positive length bound, the
inner byte loop consumes every byte of the word and never reports a
stop. -/
theorem innerLoop_no_stop (len : Int) (hlen : len ≤ 0) :
    ∀ bytes acc cur,
      innerLoop false len bytes acc cur =
        (acc ++ bytes, cur + bytes.length, false) := by
  intro bytes
  induction bytes with
  | nil =>
    intro acc cur
    simp [innerLoop]
  | cons b r ih =>
    intro acc cur
    have hneg : decide ((0 : Int) < len) = false :=
      decide_eq_false (not_lt.mpr hlen)
    simp only [innerLoop, hneg, Bool.false_and, Bool.false_or,
      Bool.false_eq_true, if_false, ih, List.append_assoc,
      List.singleton_append, Prod.mk.injEq, List.length_cons]
    refine ⟨trivial, ?_, trivial⟩
    omega

/-- C10: With nullTerminated = false and a non-positive length the string
reader cannot stop inside the byte loop, and under a memory in which every
peek succeeds with a word different from -1 it never returns: every fuel
bound is exhausted. -/
theorem c10_reader_no_exit (mem : Nat → Int) (len : Int) (hlen : len ≤ 0)
    (hmem : ∀ a, mem a ≠ -1) :
    (∀ bytes acc cur, (innerLoop false len bytes acc cur).2.2 = false) ∧
    ∀ fuel addr acc cur,
      readArgumentStringAtAddr mem false len fuel addr acc cur = none := by
  constructor
  · intro bytes acc cur
    rw [innerLoop_no_stop len hlen]
  · intro fuel
    induction fuel with
    | zero =>
      intro addr acc cur
      rfl
    | succ n ih =>
      intro addr acc cur
      rw [readArgumentStringAtAddr, if_neg (hmem addr),
        innerLoop_no_stop len hlen]
      exact ih (addr + 8) _ _

/-- C10 witness: on an all-zero memory the reader exhausts a fuel of 3. -/
theorem c10_reader_no_exit_witness :
    readArgumentStringAtAddr (fun _ => 0) false 0 3 0 [] 0 = none :=
  (c10_reader_no_exit (fun _ => 0) 0 (by decide)
    (fun a => show (0 : Int) ≠ -1 by decide)).2 3 0 [] 0

end PTrace
